import Mathlib

/-!
Shallow embedding of `overload.py`: a runtime overload-dispatch library.
The module defines `OverloadFunction`, holding parallel lists `func_list`
and `signatures`; registration rejects variadic parameters, extraction
resolves annotations via `get_type_hints`, and `__call__` resolves a call
by binding the arguments against every candidate (CPython
`inspect.Signature.bind` followed by `apply_defaults`), type-checking the
bound values with typeguard's `check_type`, and requiring exactly one
surviving candidate.

Machine-level primitives the source delegates to (CPython argument
binding, typeguard's structural checker) are embedded faithfully: binding
follows `inspect.Signature._bind`, and the type checker is modelled as a
concrete predicate over a small universe of runtime values and type
descriptors, including a descriptor on which the checker raises a
`TypeError` (typeguard does so for annotation objects it cannot handle).
-/

namespace Overload

/-- The five parameter kinds of `inspect.Parameter`. -/
inductive ParamKind where
  | positionalOnly
  | positionalOrKeyword
  | varPositional
  | keywordOnly
  | varKeyword
deriving DecidableEq

/-- Runtime values of the host language, restricted to a small concrete
universe sufficient for the dispatch logic (tuples and dicts appear only
as the containers CPython binding builds for variadic parameters). -/
inductive Value where
  | vInt (n : Int)
  | vStr (s : String)
  | vNone
  | vTuple (elems : List Value)
  | vDict (entries : List (String × Value))

/-- Type descriptors, the black-box side of typeguard's `check_type`.
`any` is `typing.Any`, the sentinel the extractor uses for unannotated
parameters. `bad` models an annotation object on which `check_type`
raises a `TypeError` rather than a `TypeCheckError`. -/
inductive Ty where
  | any
  | int
  | str
  | object
  | bad
deriving DecidableEq

/-- A raw (unevaluated) annotation: either it resolves to a descriptor or
`get_type_hints` fails on it with a `NameError` (unresolvable forward
reference). -/
inductive RawAnno where
  | resolvable (t : Ty)
  | unresolvable (missing : String)

/-- Python exceptions relevant to the module.  `noMatch` and `ambiguous`
are the two `TypeError`s `__call__` raises; their payload is the data the
source embeds in the f-string message. -/
inductive PyExc where
  | typeErrorRaw (msg : String)
  | noMatch (args : List Value) (kwargs : List (String × Value))
  | ambiguous (args : List Value) (kwargs : List (String × Value))
  | valueError (msg : String)
  | nameError (msg : String)
  | typeCheckError
  | userExc (msg : String)

/-- Class test for `except TypeError`: the no-match and ambiguous errors
are `TypeError` instances in the source; `typeguard.TypeCheckError`
derives from `Exception`, not `TypeError`. -/
def PyExc.isTypeError : PyExc → Bool
  | .typeErrorRaw _ => true
  | .noMatch _ _ => true
  | .ambiguous _ _ => true
  | _ => false

/-- One formal parameter of a callable, as `inspect.signature` reports
it: name, kind, default (`none` = `Parameter.empty`) and raw annotation
(`none` = unannotated). -/
structure Param where
  name : String
  kind : ParamKind
  default : Option Value
  anno : Option RawAnno

/-- A callable: its introspectable surface (name, parameters, return
annotation) plus its behaviour `impl` when actually invoked. -/
structure Func where
  name : String
  params : List Param
  retAnno : Option RawAnno
  impl : List Value → List (String × Value) → Except PyExc Value

/-- One entry of `signature['parameters']` as built by
`get_function_signature`. -/
structure SigParam where
  name : String
  kind : ParamKind
  default : Option Value
  required : Bool
  anno : Ty

/-- The dict `get_function_signature` returns. -/
structure Signature where
  name : String
  retTy : Ty
  parameters : List SigParam

/-- Association-list lookup by key, the embedding of Python dict access
and `in` tests (dict keys are unique). -/
def lookupKey {α : Type} : List (String × α) → String → Option α
  | [], _ => none
  | (k, v) :: rest, n => if k = n then some v else lookupKey rest n

/-- Removal of a key, the embedding of `dict.pop`. -/
def removeKey {α : Type} : List (String × α) → String → List (String × α)
  | [], _ => []
  | (k, v) :: rest, n => if k = n then rest else (k, v) :: removeKey rest n

/-- typeguard's `check_type`, embedded concretely on the small universe:
success, or `TypeCheckError` on a mismatch, or a `TypeError` on the
descriptor the checker cannot handle. -/
def check_type (value : Value) (t : Ty) : Except PyExc Unit :=
  match t with
  | .any => .ok ()
  | .object => .ok ()
  | .int =>
    match value with
    | .vInt _ => .ok ()
    | _ => .error .typeCheckError
  | .str =>
    match value with
    | .vStr _ => .ok ()
    | _ => .error .typeCheckError
  | .bad => .error (.typeErrorRaw "unsupported annotation for check_type")

/-- `_check_argument_type`: `check_type` with only `TypeCheckError`
caught and turned into `False`; any other exception propagates. -/
def _check_argument_type (value : Value) (expected : Ty) : Except PyExc Bool :=
  match check_type value expected with
  | .ok _ => .ok true
  | .error .typeCheckError => .ok false
  | .error e => .error e

/-- The parameter part of `get_type_hints`: resolve every annotated
parameter in order, failing with `NameError` on the first unresolvable
annotation. -/
def collectParamHints : List Param → Except PyExc (List (String × Ty))
  | [] => .ok []
  | p :: ps =>
    match p.anno with
    | none => collectParamHints ps
    | some (.resolvable t) =>
      match collectParamHints ps with
      | .ok rest => .ok ((p.name, t) :: rest)
      | .error e => .error e
    | some (.unresolvable missing) => .error (.nameError missing)

/-- `typing.get_type_hints`: resolved hints for the parameters plus the
`"return"` entry when the return annotation is present. -/
def get_type_hints (f : Func) : Except PyExc (List (String × Ty)) :=
  match collectParamHints f.params with
  | .error e => .error e
  | .ok paramHints =>
    match f.retAnno with
    | none => .ok paramHints
    | some (.resolvable t) => .ok (paramHints ++ [("return", t)])
    | some (.unresolvable missing) => .error (.nameError missing)

/-- `get_function_signature`: name, return annotation and the parameter
descriptors; an absent hint maps to `Any`, and `required` is "default is
`Parameter.empty`". -/
def get_function_signature (f : Func) : Except PyExc Signature :=
  match get_type_hints f with
  | .error e => .error e
  | .ok hints =>
    .ok { name := f.name
          retTy := (lookupKey hints "return").getD .any
          parameters := f.params.map (fun p =>
            { name := p.name
              kind := p.kind
              default := p.default
              required := p.default.isNone
              anno := (lookupKey hints p.name).getD .any }) }

/-- Phase 1 of CPython `Signature._bind`: consume the positional
arguments against the leading parameters.  Returns the partial
`arguments` mapping and the parameters left for the keyword phase. -/
def bindPos : List Param → List Value → List (String × Value) →
    List (String × Value) → Except PyExc (List (String × Value) × List Param)
  | [], [], _, acc => .ok (acc, [])
  | p :: ps, [], kwargs, acc =>
    if p.kind = ParamKind.varPositional then .ok (acc, ps)
    else if (lookupKey kwargs p.name).isSome then
      if p.kind = ParamKind.positionalOnly then
        .error (.typeErrorRaw "parameter is positional only, but was passed as a keyword")
      else .ok (acc, p :: ps)
    else if p.kind = ParamKind.varKeyword ∨ p.default.isSome then .ok (acc, p :: ps)
    else .error (.typeErrorRaw "missing a required argument")
  | [], _ :: _, _, _ => .error (.typeErrorRaw "too many positional arguments")
  | p :: ps, v :: vs, kwargs, acc =>
    if p.kind = ParamKind.varKeyword ∨ p.kind = ParamKind.keywordOnly then
      .error (.typeErrorRaw "too many positional arguments")
    else if p.kind = ParamKind.varPositional then
      .ok (acc ++ [(p.name, Value.vTuple (v :: vs))], ps)
    else if (lookupKey kwargs p.name).isSome ∧ p.kind ≠ ParamKind.positionalOnly then
      .error (.typeErrorRaw "multiple values for argument")
    else bindPos ps vs kwargs (acc ++ [(p.name, v)])

/-- Phase 2 of CPython `Signature._bind`: consume the keyword arguments
against the remaining parameters; leftovers go to a `**kwargs` parameter
or raise. -/
def bindKw : List Param → List (String × Value) → List (String × Value) →
    Option Param → Except PyExc (List (String × Value))
  | [], kwargs, acc, kwParam =>
    match kwargs with
    | [] => .ok acc
    | _ :: _ =>
      match kwParam with
      | some kp => .ok (acc ++ [(kp.name, Value.vDict kwargs)])
      | none => .error (.typeErrorRaw "got an unexpected keyword argument")
  | p :: ps, kwargs, acc, kwParam =>
    if p.kind = ParamKind.varKeyword then bindKw ps kwargs acc (some p)
    else if p.kind = ParamKind.varPositional then bindKw ps kwargs acc kwParam
    else
      match lookupKey kwargs p.name with
      | none =>
        if p.default.isNone then .error (.typeErrorRaw "missing a required argument")
        else bindKw ps kwargs acc kwParam
      | some v =>
        if p.kind = ParamKind.positionalOnly then
          .error (.typeErrorRaw "parameter is positional only, but was passed as a keyword")
        else bindKw ps (removeKey kwargs p.name) (acc ++ [(p.name, v)]) kwParam

/-- `inspect.signature(func).bind(args, kwargs)`. -/
def bindCall (params : List Param) (args : List Value)
    (kwargs : List (String × Value)) : Except PyExc (List (String × Value)) :=
  match bindPos params args kwargs [] with
  | .error e => .error e
  | .ok (acc, rest) => bindKw rest kwargs acc none

/-- `BoundArguments.apply_defaults`: rebuild `arguments` in parameter
order, filling defaults (and empty containers for variadics) for omitted
parameters. -/
def applyDefaults : List Param → List (String × Value) → List (String × Value)
  | [], _ => []
  | p :: ps, bound =>
    match lookupKey bound p.name with
    | some v => (p.name, v) :: applyDefaults ps bound
    | none =>
      match p.default with
      | some d => (p.name, d) :: applyDefaults ps bound
      | none =>
        match p.kind with
        | .varPositional => (p.name, Value.vTuple []) :: applyDefaults ps bound
        | .varKeyword => (p.name, Value.vDict []) :: applyDefaults ps bound
        | _ => applyDefaults ps bound

/-- The type-check loop of `__call__`: for each descriptor parameter
whose name is bound, check the bound value unless the annotation is
`Any`; the first mismatch breaks with `False`. -/
def typeCheckParams : List SigParam → List (String × Value) → Except PyExc Bool
  | [], _ => .ok true
  | p :: ps, bound =>
    match lookupKey bound p.name with
    | none => typeCheckParams ps bound
    | some v =>
      if p.anno = Ty.any then typeCheckParams ps bound
      else
        match _check_argument_type v p.anno with
        | .ok true => typeCheckParams ps bound
        | .ok false => .ok false
        | .error e => .error e

/-- The body of the per-candidate `try` block: bind, apply defaults,
type-check.  `.ok true` means the candidate matches. -/
def candidateBlock (f : Func) (s : Signature) (args : List Value)
    (kwargs : List (String × Value)) : Except PyExc Bool :=
  match bindCall f.params args kwargs with
  | .error e => .error e
  | .ok bound => typeCheckParams s.parameters (applyDefaults f.params bound)

/-- The per-candidate `try`/`except TypeError: continue`: a `TypeError`
from anywhere in the block eliminates the candidate; other exceptions
propagate. -/
def tryCandidate (f : Func) (s : Signature) (args : List Value)
    (kwargs : List (String × Value)) : Except PyExc Bool :=
  match candidateBlock f s args kwargs with
  | .error e => if e.isTypeError then .ok false else .error e
  | .ok b => .ok b

/-- The candidate-filtering loop of `__call__` over
`zip(func_list, signatures)`, collecting `matched_funcs`. -/
def collectMatches : List (Func × Signature) → List Value →
    List (String × Value) → Except PyExc (List Func)
  | [], _, _ => .ok []
  | (f, s) :: rest, args, kwargs =>
    match tryCandidate f s args kwargs with
    | .ok true =>
      match collectMatches rest args kwargs with
      | .ok ms => .ok (f :: ms)
      | .error e => .error e
    | .ok false => collectMatches rest args kwargs
    | .error e => .error e

/-- The registry state: the two parallel instance lists. -/
structure OverloadFunction where
  func_list : List Func
  signatures : List Signature

/-- The `for param in sig.parameters.values()` variadic scan shared by
`__init__` and `overload`. -/
def hasVariadic (f : Func) : Bool :=
  f.params.any (fun p =>
    p.kind = ParamKind.varPositional ∨ p.kind = ParamKind.varKeyword)

/-- The `ValueError` both registration entry points raise on a variadic
parameter. -/
def invalidOverloadError : PyExc :=
  .valueError "OverloadFunction cannot decorate functions with *args or **kwargs parameters"

/-- `OverloadFunction.__init__`: reject variadics, then extract the
signature; an extraction failure aborts construction. -/
def OverloadFunction.init (func : Func) : Except PyExc OverloadFunction :=
  if hasVariadic func then .error invalidOverloadError
  else
    match get_function_signature func with
    | .error e => .error e
    | .ok sig => .ok { func_list := [func], signatures := [sig] }

/-- `OverloadFunction.overload`, in state-passing style: the post-state
plus the exception raised, if any.  The source appends to `func_list`
before computing the signature, so an extraction failure leaves
`func_list` already extended. -/
def OverloadFunction.overload (self : OverloadFunction) (func : Func) :
    OverloadFunction × Option PyExc :=
  if hasVariadic func then (self, some invalidOverloadError)
  else
    let self1 : OverloadFunction :=
      { self with func_list := self.func_list ++ [func] }
    match get_function_signature func with
    | .error e => (self1, some e)
    | .ok sig => ({ self1 with signatures := self1.signatures ++ [sig] }, none)

/-- `OverloadFunction.__call__`, in state-passing style: the outcome
(result of the unique match, or the raised exception) together with the
post-state.  The method body performs no assignment to `self`, so the
translation returns the input state unchanged. -/
def OverloadFunction.call (self : OverloadFunction) (args : List Value)
    (kwargs : List (String × Value)) :
    Except PyExc Value × OverloadFunction :=
  let r : Except PyExc Value :=
    match collectMatches (self.func_list.zip self.signatures) args kwargs with
    | .error e => .error e
    | .ok [] => .error (.noMatch args kwargs)
    | .ok [f] => f.impl args kwargs
    | .ok (_ :: _ :: _) => .error (.ambiguous args kwargs)
  (r, self)

/-- The registry states reachable through the public API: an initial
decoration followed by any sequence of `overload` registrations
(succeeding or not). -/
inductive Reachable : OverloadFunction → Prop
  | init (f : Func) (st : OverloadFunction) :
      OverloadFunction.init f = .ok st → Reachable st
  | step (st st' : OverloadFunction) (f : Func) (r : Option PyExc) :
      Reachable st → st.overload f = (st', r) → Reachable st'

/-! Concrete candidates used to exercise the embedding: the `f`, `g` and
`h` scenarios of the documentation, a variadic callable, one whose
annotation cannot be resolved, and one whose annotation the checker
rejects with a `TypeError`. -/

/-- `def f(a: int, b: str)`, the initial decoration target. -/
def fCand1 : Func :=
  { name := "f"
    params := [⟨"a", .positionalOrKeyword, none, some (.resolvable .int)⟩,
               ⟨"b", .positionalOrKeyword, none, some (.resolvable .str)⟩]
    retAnno := none
    impl := fun _ _ => .ok (.vStr "first") }

/-- `def f(a: str, b: int)`, added via `overload`. -/
def fCand2 : Func :=
  { name := "f"
    params := [⟨"a", .positionalOrKeyword, none, some (.resolvable .str)⟩,
               ⟨"b", .positionalOrKeyword, none, some (.resolvable .int)⟩]
    retAnno := none
    impl := fun _ _ => .ok (.vStr "second") }

/-- The registry after `@OverloadFunction def f(a:int,b:str)` and
`@f.overload def f(a:str,b:int)`. -/
def fState : OverloadFunction :=
  match OverloadFunction.init fCand1 with
  | .ok st => (st.overload fCand2).1
  | .error _ => { func_list := [], signatures := [] }

/-- `def g(x: int)`. -/
def gCand1 : Func :=
  { name := "g"
    params := [⟨"x", .positionalOrKeyword, none, some (.resolvable .int)⟩]
    retAnno := none
    impl := fun _ _ => .ok (.vStr "g-int") }

/-- `def g(x: object)`. -/
def gCand2 : Func :=
  { name := "g"
    params := [⟨"x", .positionalOrKeyword, none, some (.resolvable .object)⟩]
    retAnno := none
    impl := fun _ _ => .ok (.vStr "g-object") }

/-- The signature the extractor produces for `gCand1`. -/
def gSig1 : Signature :=
  { name := "g"
    retTy := .any
    parameters := [⟨"x", .positionalOrKeyword, none, true, .int⟩] }

/-- The registry holding `gCand1` alone. -/
def gInit : OverloadFunction :=
  { func_list := [gCand1], signatures := [gSig1] }

/-- The registry after registering `gCand1` then `gCand2`. -/
def gState : OverloadFunction :=
  match OverloadFunction.init gCand1 with
  | .ok st => (st.overload gCand2).1
  | .error _ => { func_list := [], signatures := [] }

/-- `def h(x: int = 0)`. -/
def hFunc : Func :=
  { name := "h"
    params := [⟨"x", .positionalOrKeyword, some (.vInt 0), some (.resolvable .int)⟩]
    retAnno := none
    impl := fun _ _ => .ok (.vStr "h-result") }

/-- The signature the extractor produces for `hFunc`. -/
def hSig : Signature :=
  { name := "h"
    retTy := .any
    parameters := [⟨"x", .positionalOrKeyword, some (.vInt 0), false, .int⟩] }

/-- The registry holding `hFunc` alone. -/
def hState : OverloadFunction :=
  match OverloadFunction.init hFunc with
  | .ok st => st
  | .error _ => { func_list := [], signatures := [] }

/-- `def v(*args)`, a variadic callable both entry points must reject. -/
def varFunc : Func :=
  { name := "v"
    params := [⟨"args", .varPositional, none, none⟩]
    retAnno := none
    impl := fun _ _ => .ok .vNone }

/-- A callable whose parameter annotation is an unresolvable forward
reference, so `get_type_hints` raises `NameError`. -/
def badAnnFunc : Func :=
  { name := "bad"
    params := [⟨"x", .positionalOrKeyword, none, some (.unresolvable "NoSuchName")⟩]
    retAnno := none
    impl := fun _ _ => .ok .vNone }

/-- A callable whose resolved annotation the checker rejects with a
`TypeError` during the type-check phase. -/
def badTyFunc : Func :=
  { name := "badty"
    params := [⟨"x", .positionalOrKeyword, none, some (.resolvable .bad)⟩]
    retAnno := none
    impl := fun _ _ => .ok .vNone }

/-- The signature the extractor produces for `badTyFunc`. -/
def badTySig : Signature :=
  { name := "badty"
    retTy := .any
    parameters := [⟨"x", .positionalOrKeyword, none, true, .bad⟩] }

/-- A callable with one unannotated parameter, for the unconstrained
sentinel. -/
def uCand : Func :=
  { name := "u"
    params := [⟨"x", .positionalOrKeyword, none, none⟩]
    retAnno := none
    impl := fun _ _ => .ok (.vStr "u-result") }

/-- The signature the extractor produces for `uCand`: the unannotated
parameter is mapped to the `Any` sentinel. -/
def uSig : Signature :=
  { name := "u"
    retTy := .any
    parameters := [⟨"x", .positionalOrKeyword, none, true, .any⟩] }

end Overload

namespace Overload

/-- The scenario table of the module documentation, checked by
evaluating the embedding: `f(1,"2")` dispatches to the first candidate,
`f("1",2)` to the second, `f(1,2)` and `f("1","2")` raise the no-match
error, `g(1)` is ambiguous, `h()` is invoked via its default and
`h("s")` raises the no-match error. -/
theorem documented_scenario_table :
    (fState.call [.vInt 1, .vStr "2"] []).1 = .ok (.vStr "first") ∧
    (fState.call [.vStr "1", .vInt 2] []).1 = .ok (.vStr "second") ∧
    (fState.call [.vInt 1, .vInt 2] []).1 =
      .error (.noMatch [.vInt 1, .vInt 2] []) ∧
    (fState.call [.vStr "1", .vStr "2"] []).1 =
      .error (.noMatch [.vStr "1", .vStr "2"] []) ∧
    (gState.call [.vInt 1] []).1 = .error (.ambiguous [.vInt 1] []) ∧
    (hState.call [] []).1 = .ok (.vStr "h-result") ∧
    (hState.call [.vStr "s"] []).1 = .error (.noMatch [.vStr "s"] []) :=
  ⟨rfl, rfl, rfl, rfl, rfl, rfl, rfl⟩

/-! Helper lemmas shared by the claim theorems. -/

theorem bindPos_error_typeErrorRaw (ps : List Param) (args : List Value)
    (kwargs acc : List (String × Value)) (e : PyExc)
    (h : bindPos ps args kwargs acc = .error e) : ∃ m, e = .typeErrorRaw m := by
  induction ps generalizing args acc with
  | nil =>
    cases args with
    | nil => simp [bindPos] at h
    | cons v vs =>
      simp only [bindPos] at h
      injection h with h
      exact ⟨_, h.symm⟩
  | cons p ps ih =>
    cases args with
    | nil =>
      simp only [bindPos] at h
      split_ifs at h <;>
        first
          | (injection h with h; exact ⟨_, h.symm⟩)
          | injection h
          | (exact ⟨_, h.symm⟩)
    | cons v vs =>
      simp only [bindPos] at h
      split_ifs at h <;>
        first
          | (injection h with h; exact ⟨_, h.symm⟩)
          | injection h
          | (exact ⟨_, h.symm⟩)
          | exact ih vs _ h

theorem bindKw_error_typeErrorRaw (ps : List Param) (kwargs acc : List (String × Value))
    (kwParam : Option Param) (e : PyExc)
    (h : bindKw ps kwargs acc kwParam = .error e) : ∃ m, e = .typeErrorRaw m := by
  induction ps generalizing kwargs acc kwParam with
  | nil =>
    cases kwargs with
    | nil => simp [bindKw] at h
    | cons kv rest =>
      cases kwParam with
      | none =>
        simp only [bindKw] at h
        injection h with h
        exact ⟨_, h.symm⟩
      | some kp => simp [bindKw] at h
  | cons p ps ih =>
    simp only [bindKw] at h
    by_cases h1 : p.kind = ParamKind.varKeyword
    · rw [if_pos h1] at h
      exact ih _ _ _ h
    · rw [if_neg h1] at h
      by_cases h2 : p.kind = ParamKind.varPositional
      · rw [if_pos h2] at h
        exact ih _ _ _ h
      · rw [if_neg h2] at h
        split at h
        · split_ifs at h <;>
            first
              | (injection h with h; exact ⟨_, h.symm⟩)
              | exact ih _ _ _ h
        · split_ifs at h <;>
            first
              | (injection h with h; exact ⟨_, h.symm⟩)
              | exact ih _ _ _ h

theorem bindCall_error_typeError (params : List Param) (args : List Value)
    (kwargs : List (String × Value)) (e : PyExc)
    (h : bindCall params args kwargs = .error e) : e.isTypeError = true := by
  unfold bindCall at h
  cases hp : bindPos params args kwargs [] with
  | error e0 =>
    rw [hp] at h
    obtain ⟨m, hm⟩ := bindPos_error_typeErrorRaw _ _ _ _ _ hp
    cases h
    rw [hm]
    rfl
  | ok pr =>
    rw [hp] at h
    obtain ⟨m, hm⟩ := bindKw_error_typeErrorRaw _ _ _ _ _ h
    rw [hm]
    rfl

theorem tryCandidate_of_typeError (f : Func) (s : Signature) (args : List Value)
    (kwargs : List (String × Value)) (e : PyExc)
    (h : candidateBlock f s args kwargs = .error e) (ht : e.isTypeError = true) :
    tryCandidate f s args kwargs = .ok false := by
  simp [tryCandidate, h, ht]

theorem collectMatches_cons_skip (f : Func) (s : Signature)
    (rest : List (Func × Signature)) (args : List Value)
    (kwargs : List (String × Value))
    (h : tryCandidate f s args kwargs = .ok false) :
    collectMatches ((f, s) :: rest) args kwargs = collectMatches rest args kwargs := by
  simp [collectMatches, h]

theorem lookupKey_append_none {α : Type} (l1 l2 : List (String × α)) (n : String)
    (h1 : lookupKey l1 n = none) (h2 : lookupKey l2 n = none) :
    lookupKey (l1 ++ l2) n = none := by
  induction l1 with
  | nil => simpa using h2
  | cons kv rest ih =>
    obtain ⟨k, v⟩ := kv
    simp only [lookupKey] at h1
    by_cases hk : k = n
    · rw [if_pos hk] at h1
      exact absurd h1 (by simp)
    · rw [if_neg hk] at h1
      simp only [List.cons_append, lookupKey, if_neg hk]
      exact ih h1

theorem lookupKey_collectParamHints_none (ps : List Param)
    (hints : List (String × Ty)) (n : String)
    (hok : collectParamHints ps = .ok hints)
    (hnone : ∀ q ∈ ps, q.name = n → q.anno = none) :
    lookupKey hints n = none := by
  induction ps generalizing hints with
  | nil =>
    simp only [collectParamHints] at hok
    injection hok with hok
    rw [← hok]
    rfl
  | cons p ps ih =>
    simp only [collectParamHints] at hok
    cases hp : p.anno with
    | none =>
      rw [hp] at hok
      exact ih hints hok (fun q hq hqn => hnone q (List.mem_cons_of_mem _ hq) hqn)
    | some ra =>
      cases ra with
      | resolvable t =>
        rw [hp] at hok
        cases hrest : collectParamHints ps with
        | error e =>
          rw [hrest] at hok
          injection hok
        | ok rest =>
          rw [hrest] at hok
          injection hok with hok
          have hpn : ¬ p.name = n := by
            intro hEq
            have hcontra := hnone p (List.mem_cons_self _ _) hEq
            rw [hp] at hcontra
            exact Option.noConfusion hcontra
          rw [← hok]
          simp only [lookupKey, if_neg hpn]
          exact ih rest hrest
            (fun q hq hqn => hnone q (List.mem_cons_of_mem _ hq) hqn)
      | unresolvable m =>
        rw [hp] at hok
        injection hok

theorem lookupKey_hints_none (f : Func) (hints : List (String × Ty)) (n : String)
    (hok : get_type_hints f = .ok hints)
    (hnone : ∀ q ∈ f.params, q.name = n → q.anno = none)
    (hret : ¬ n = "return") :
    lookupKey hints n = none := by
  unfold get_type_hints at hok
  cases hph : collectParamHints f.params with
  | error e =>
    rw [hph] at hok
    injection hok
  | ok paramHints =>
    rw [hph] at hok
    have h1 : lookupKey paramHints n = none :=
      lookupKey_collectParamHints_none _ _ _ hph hnone
    cases hra : f.retAnno with
    | none =>
      rw [hra] at hok
      injection hok with hok
      rw [← hok]
      exact h1
    | some ra =>
      cases ra with
      | resolvable t =>
        rw [hra] at hok
        injection hok with hok
        rw [← hok]
        refine lookupKey_append_none _ _ _ h1 ?_
        simp only [lookupKey]
        rw [if_neg (fun hEq => hret hEq.symm)]
      | unresolvable m =>
        rw [hra] at hok
        injection hok

theorem typeCheckParams_skip_any (p : SigParam) (ps : List SigParam)
    (bound : List (String × Value)) (hp : p.anno = Ty.any) :
    typeCheckParams (p :: ps) bound = typeCheckParams ps bound := by
  cases hb : lookupKey bound p.name with
  | none => simp [typeCheckParams, hb]
  | some v => simp [typeCheckParams, hb, hp]

theorem extracted_anno_any (f : Func) (sig : Signature)
    (hok : get_function_signature f = .ok sig)
    (hnodup : (f.params.map Param.name).Nodup)
    (i : Nat) (hi : i < f.params.length) (hj : i < sig.parameters.length)
    (hanno : (f.params.get ⟨i, hi⟩).anno = none)
    (hname : ¬ (f.params.get ⟨i, hi⟩).name = "return") :
    (sig.parameters.get ⟨i, hj⟩).anno = Ty.any := by
  unfold get_function_signature at hok
  cases hth : get_type_hints f with
  | error e =>
    rw [hth] at hok
    injection hok
  | ok hints =>
    rw [hth] at hok
    injection hok with hok
    have hlk : lookupKey hints (f.params.get ⟨i, hi⟩).name = none := by
      refine lookupKey_hints_none f hints _ hth ?_ hname
      intro q hq hqn
      have hq2 : q = f.params.get ⟨i, hi⟩ :=
        List.inj_on_of_nodup_map hnodup hq (List.get_mem _ _ _) hqn
      rw [hq2]
      exact hanno
    subst hok
    simp only [List.get_eq_getElem, List.getElem_map]
    simp only [List.get_eq_getElem] at hlk
    rw [hlk]
    rfl

theorem applyDefaults_head_skip (q : Param) (qs : List Param)
    (bound : List (String × Value)) (n : String) (hq : ¬ q.name = n) :
    lookupKey (applyDefaults (q :: qs) bound) n =
      lookupKey (applyDefaults qs bound) n := by
  simp only [applyDefaults]
  cases lookupKey bound q.name with
  | some v => simp [lookupKey, if_neg hq]
  | none =>
    cases q.default with
    | some d => simp [lookupKey, if_neg hq]
    | none => cases q.kind <;> simp [lookupKey, if_neg hq]

theorem applyDefaults_lookup_default : ∀ (params : List Param)
    (bound : List (String × Value)) (p : Param) (d : Value),
    p ∈ params → (params.map Param.name).Nodup → p.default = some d →
    lookupKey bound p.name = none →
    lookupKey (applyDefaults params bound) p.name = some d := by
  intro params
  induction params with
  | nil =>
    intro bound p d hmem
    exact absurd hmem (List.not_mem_nil _)
  | cons q qs ih =>
    intro bound p d hmem hnodup hdef hnb
    rcases List.mem_cons.mp hmem with hqp | hmem2
    · subst hqp
      simp [applyDefaults, hnb, hdef, lookupKey]
    · rw [List.map_cons] at hnodup
      obtain ⟨hqnotin, htail⟩ := List.nodup_cons.mp hnodup
      have hpn : p.name ∈ qs.map Param.name := List.mem_map_of_mem _ hmem2
      have hqn : ¬ q.name = p.name := fun hEq => hqnotin (hEq ▸ hpn)
      rw [applyDefaults_head_skip q qs bound p.name hqn]
      exact ih bound p d hmem2 htail hdef hnb

theorem typeCheckParams_fails_of_mismatch : ∀ (sps : List SigParam)
    (bound : List (String × Value)) (p : SigParam) (v : Value),
    p ∈ sps → lookupKey bound p.name = some v → ¬ p.anno = Ty.any →
    _check_argument_type v p.anno = .ok false →
    ¬ typeCheckParams sps bound = .ok true := by
  intro sps
  induction sps with
  | nil =>
    intro bound p v hmem
    exact absurd hmem (List.not_mem_nil _)
  | cons q qs ih =>
    intro bound p v hmem hlk hanno hchk htc
    rcases List.mem_cons.mp hmem with hqp | hmem2
    · subst hqp
      simp [typeCheckParams, hlk, hchk, hanno] at htc
    · cases hq : lookupKey bound q.name with
      | none =>
        simp only [typeCheckParams, hq] at htc
        exact ih bound p v hmem2 hlk hanno hchk htc
      | some w =>
        by_cases hqa : q.anno = Ty.any
        · simp only [typeCheckParams, hq, if_pos hqa] at htc
          exact ih bound p v hmem2 hlk hanno hchk htc
        · cases hc : _check_argument_type w q.anno with
          | ok b =>
            cases b with
            | true =>
              simp only [typeCheckParams, hq, if_neg hqa, hc] at htc
              exact ih bound p v hmem2 hlk hanno hchk htc
            | false => simp [typeCheckParams, hq, hqa, hc] at htc
          | error e => simp [typeCheckParams, hq, hqa, hc] at htc

/-! The claim theorems. -/

/-- C1: after computing the survivor set of a call, zero survivors make
the call fail with the no-match `TypeError` carrying the attempted
arguments; a unique survivor is invoked with the original arguments and
its outcome (result or exception) is returned unmodified; two or more
survivors make the call fail with the ambiguity `TypeError` carrying the
attempted arguments. -/
theorem C1_dispatch_decision_rule (st : OverloadFunction) (args : List Value)
    (kwargs : List (String × Value)) (survivors : List Func)
    (h : collectMatches (st.func_list.zip st.signatures) args kwargs = .ok survivors) :
    (survivors = [] → (st.call args kwargs).1 = .error (.noMatch args kwargs)) ∧
    (∀ f, survivors = [f] → (st.call args kwargs).1 = f.impl args kwargs) ∧
    (2 ≤ survivors.length →
      (st.call args kwargs).1 = .error (.ambiguous args kwargs)) := by
  refine ⟨?_, ?_, ?_⟩
  · rintro rfl
    simp [OverloadFunction.call, h]
  · rintro f rfl
    simp [OverloadFunction.call, h]
  · intro h2
    rcases survivors with _ | ⟨a, _ | ⟨b, t⟩⟩
    · simp at h2
    · simp at h2
    · simp [OverloadFunction.call, h]

/-- C1 witness: in the documented `f` scenario, `f(1, "2")` resolves to
the unique survivor `fCand1` and returns its invocation outcome. -/
theorem C1_dispatch_decision_rule_witness :
    (fState.call [.vInt 1, .vStr "2"] []).1 =
      fCand1.impl [.vInt 1, .vStr "2"] [] :=
  (C1_dispatch_decision_rule fState [.vInt 1, .vStr "2"] [] [fCand1] rfl).2.1
    fCand1 rfl

/-- C2: whenever two or more candidates survive binding and
type-checking, resolution fails with the ambiguity error — declaration
order never breaks the tie. -/
theorem C2_two_survivors_always_ambiguous (st : OverloadFunction)
    (args : List Value) (kwargs : List (String × Value)) (survivors : List Func)
    (h : collectMatches (st.func_list.zip st.signatures) args kwargs = .ok survivors)
    (h2 : 2 ≤ survivors.length) :
    (st.call args kwargs).1 = .error (.ambiguous args kwargs) := by
  rcases survivors with _ | ⟨a, _ | ⟨b, t⟩⟩
  · simp at h2
  · simp at h2
  · simp [OverloadFunction.call, h]

/-- C2 witness: with `g(x: int)` and `g(x: object)` registered, the call
`g(1)` passes both type checks (the `object` supertype annotation is
still checked and passes) and raises the ambiguity error. -/
theorem C2_two_survivors_always_ambiguous_witness :
    (gState.call [.vInt 1] []).1 = .error (.ambiguous [.vInt 1] []) :=
  C2_two_survivors_always_ambiguous gState [.vInt 1] [] [gCand1, gCand2] rfl
    (by decide)

/-- C5: a binding failure of the supplied arguments against one
candidate is a `TypeError`, is silently caught, eliminates only that
candidate, and resolution continues with the remaining candidates. -/
theorem C5_binding_failure_silently_eliminates (f : Func) (s : Signature)
    (rest : List (Func × Signature)) (args : List Value)
    (kwargs : List (String × Value)) (e : PyExc)
    (h : bindCall f.params args kwargs = .error e) :
    e.isTypeError = true ∧
    tryCandidate f s args kwargs = .ok false ∧
    collectMatches ((f, s) :: rest) args kwargs =
      collectMatches rest args kwargs := by
  have ht : e.isTypeError = true := bindCall_error_typeError _ _ _ _ h
  have hb : candidateBlock f s args kwargs = .error e := by
    simp [candidateBlock, h]
  have htr : tryCandidate f s args kwargs = .ok false :=
    tryCandidate_of_typeError _ _ _ _ _ hb ht
  exact ⟨ht, htr, collectMatches_cons_skip _ _ _ _ _ htr⟩

/-- C5 witness: calling the one-parameter candidate `g(x: int)` with two
positional arguments fails binding with an arity `TypeError` and the
candidate is skipped without an error escaping resolution. -/
theorem C5_binding_failure_silently_eliminates_witness :
    (PyExc.typeErrorRaw "too many positional arguments").isTypeError = true ∧
    tryCandidate gCand1 gSig1 [.vInt 1, .vInt 2] [] = .ok false ∧
    collectMatches [(gCand1, gSig1)] [.vInt 1, .vInt 2] [] =
      collectMatches [] [.vInt 1, .vInt 2] [] :=
  C5_binding_failure_silently_eliminates gCand1 gSig1 []
    [.vInt 1, .vInt 2] [] (.typeErrorRaw "too many positional arguments") rfl

/-- C6: an unannotated parameter is mapped to the `Any` sentinel by the
extractor, and an `Any`-annotated descriptor parameter is a universal
match — it is never the reason a candidate is eliminated in the
type-checking step. -/
theorem C6_unconstrained_is_universal_match :
    (∀ (p : SigParam) (ps : List SigParam) (bound : List (String × Value)),
        p.anno = Ty.any →
        typeCheckParams (p :: ps) bound = typeCheckParams ps bound) ∧
    (∀ (f : Func) (sig : Signature),
        get_function_signature f = .ok sig →
        (f.params.map Param.name).Nodup →
        ∀ (i : Nat) (hi : i < f.params.length) (hj : i < sig.parameters.length),
          (f.params.get ⟨i, hi⟩).anno = none →
          ¬ (f.params.get ⟨i, hi⟩).name = "return" →
          (sig.parameters.get ⟨i, hj⟩).anno = Ty.any) :=
  ⟨fun p ps bound hp => typeCheckParams_skip_any p ps bound hp,
   fun f sig hok hnodup i hi hj hanno hname =>
     extracted_anno_any f sig hok hnodup i hi hj hanno hname⟩

/-- C6 witness: the unannotated parameter of `uCand` extracts to the
`Any` sentinel, and checking an `Any` descriptor parameter never changes
the outcome of the type-checking loop. -/
theorem C6_unconstrained_is_universal_match_witness :
    typeCheckParams [⟨"x", .positionalOrKeyword, none, true, Ty.any⟩]
        [("x", Value.vInt 5)] =
      typeCheckParams [] [("x", Value.vInt 5)] ∧
    (uSig.parameters.get ⟨0, by decide⟩).anno = Ty.any :=
  ⟨(C6_unconstrained_is_universal_match).1
      ⟨"x", .positionalOrKeyword, none, true, Ty.any⟩ [] [("x", Value.vInt 5)] rfl,
   (C6_unconstrained_is_universal_match).2 uCand uSig rfl (by decide)
      0 (by decide) (by decide) rfl (by decide)⟩

/-- C7: a defaulted parameter the caller omits is bound to its default
by `apply_defaults`, a bound value (supplied or defaulted) whose declared
type it fails is fatal for the candidate in the type-checking loop, and
in the documented `h(x: int = 0)` scenario `h()` is invoked while
`h("s")` yields no match. -/
theorem C7_defaults_bound_and_still_checked :
    (∀ (params : List Param) (bound : List (String × Value)) (p : Param)
        (d : Value),
        p ∈ params → (params.map Param.name).Nodup → p.default = some d →
        lookupKey bound p.name = none →
        lookupKey (applyDefaults params bound) p.name = some d) ∧
    (∀ (sps : List SigParam) (bound : List (String × Value)) (p : SigParam)
        (v : Value),
        p ∈ sps → lookupKey bound p.name = some v → ¬ p.anno = Ty.any →
        _check_argument_type v p.anno = .ok false →
        ¬ typeCheckParams sps bound = .ok true) ∧
    (hState.call [] []).1 = hFunc.impl [] [] ∧
    (hState.call [.vStr "s"] []).1 = .error (.noMatch [.vStr "s"] []) :=
  ⟨applyDefaults_lookup_default, typeCheckParams_fails_of_mismatch, rfl, rfl⟩

/-- C7 witness: for `h(x: int = 0)`, the omitted parameter is bound to
`0` by default application, and an explicitly supplied `"s"` is still
type-checked and eliminates the candidate. -/
theorem C7_defaults_bound_and_still_checked_witness :
    lookupKey (applyDefaults hFunc.params []) "x" = some (Value.vInt 0) ∧
    ¬ typeCheckParams hSig.parameters [("x", Value.vStr "s")] = .ok true :=
  ⟨(C7_defaults_bound_and_still_checked).1 hFunc.params []
      ⟨"x", .positionalOrKeyword, some (.vInt 0), some (.resolvable .int)⟩
      (Value.vInt 0) (List.mem_singleton.mpr rfl) (by decide) rfl rfl,
   (C7_defaults_bound_and_still_checked).2.1 hSig.parameters
      [("x", Value.vStr "s")]
      ⟨"x", .positionalOrKeyword, some (.vInt 0), false, .int⟩
      (Value.vStr "s") (List.mem_singleton.mpr rfl) rfl (by decide) rfl⟩

/-- C8: resolution is deterministic and idempotent — running the same
call again on the post-state of a first call yields the same outcome and
the same state. -/
theorem C8_resolution_idempotent (st : OverloadFunction) (args : List Value)
    (kwargs : List (String × Value)) :
    ((st.call args kwargs).2.call args kwargs).1 = (st.call args kwargs).1 ∧
    ((st.call args kwargs).2.call args kwargs).2 = (st.call args kwargs).2 :=
  ⟨rfl, rfl⟩

/-- C9: `__call__` never mutates the registry — the callable list and
the signature list after a call are those before it, whatever the
outcome. -/
theorem C9_call_preserves_registry (st : OverloadFunction) (args : List Value)
    (kwargs : List (String × Value)) :
    (st.call args kwargs).2.func_list = st.func_list ∧
    (st.call args kwargs).2.signatures = st.signatures :=
  ⟨rfl, rfl⟩

/-- C10: any `TypeError` raised inside the per-candidate block —
including one raised by the type-compatibility checker in the
type-checking phase — is caught and eliminates just that candidate,
while the distinct `TypeCheckError` signal is converted into an ordinary
elimination inside `_check_argument_type`. -/
theorem C10_typeerror_caught_per_candidate (f : Func) (s : Signature)
    (rest : List (Func × Signature)) (args : List Value)
    (kwargs : List (String × Value)) (e : PyExc)
    (h : candidateBlock f s args kwargs = .error e)
    (ht : e.isTypeError = true) :
    tryCandidate f s args kwargs = .ok false ∧
    collectMatches ((f, s) :: rest) args kwargs =
      collectMatches rest args kwargs ∧
    (∀ (v : Value) (t : Ty), check_type v t = .error .typeCheckError →
      _check_argument_type v t = .ok false) := by
  have htr : tryCandidate f s args kwargs = .ok false :=
    tryCandidate_of_typeError _ _ _ _ _ h ht
  refine ⟨htr, collectMatches_cons_skip _ _ _ _ _ htr, ?_⟩
  intro v t hc
  simp [_check_argument_type, hc]

/-- C3: a callable with a variadic parameter is rejected by both
registration entry points with the construction-time `ValueError`, the
`overload` entry point leaves the state untouched, and consequently no
reachable registry state contains a variadic member. -/
theorem C3_variadic_rejected_everywhere (f : Func) (st : OverloadFunction) :
    (hasVariadic f = true →
      OverloadFunction.init f = .error invalidOverloadError ∧
      st.overload f = (st, some invalidOverloadError)) ∧
    (Reachable st → ∀ g ∈ st.func_list, hasVariadic g = false) := by
  constructor
  · intro hv
    constructor
    · simp [OverloadFunction.init, hv]
    · simp [OverloadFunction.overload, hv]
  · intro hr
    induction hr with
    | init f0 st0 h0 =>
      intro g hg
      unfold OverloadFunction.init at h0
      by_cases hv : hasVariadic f0 = true
      · rw [if_pos hv] at h0
        injection h0
      · rw [if_neg hv] at h0
        split at h0
        · injection h0
        · injection h0 with h0
          rw [← h0] at hg
          simp only [List.mem_singleton] at hg
          rw [hg]
          exact Bool.not_eq_true _ ▸ hv
    | step st0 st1 f0 r hr0 hstep ih =>
      intro g hg
      unfold OverloadFunction.overload at hstep
      by_cases hv : hasVariadic f0 = true
      · rw [if_pos hv] at hstep
        have h1 : st1 = st0 := by
          have := congrArg Prod.fst hstep
          exact this.symm
        exact ih g (h1 ▸ hg)
      · rw [if_neg hv] at hstep
        have hfl : st1.func_list = st0.func_list ++ [f0] := by
          split at hstep <;>
            · have h2 := congrArg (fun x => x.1.func_list) hstep
              simpa using h2.symm
        rw [hfl] at hg
        rcases List.mem_append.mp hg with hmem | hmem
        · exact ih g hmem
        · simp only [List.mem_singleton] at hmem
          rw [hmem]
          exact Bool.not_eq_true _ ▸ hv

/-- C3 witness: both entry points reject the variadic callable, and the
member of a concretely-reached registry is variadic-free. -/
theorem C3_variadic_rejected_everywhere_witness :
    OverloadFunction.init varFunc = .error invalidOverloadError ∧
    OverloadFunction.overload gInit varFunc = (gInit, some invalidOverloadError) ∧
    hasVariadic gCand1 = false :=
  ⟨((C3_variadic_rejected_everywhere varFunc gInit).1 rfl).1,
   ((C3_variadic_rejected_everywhere varFunc gInit).1 rfl).2,
   (C3_variadic_rejected_everywhere varFunc gInit).2
     (Reachable.init gCand1 gInit rfl) gCand1 (List.mem_singleton.mpr rfl)⟩

/-- C4 (code-bug evidence): registering via `overload` a callable whose
annotation extraction fails raises the `NameError` synchronously, but
the callable list has already been extended while the signature list has
not — the registry is left changed, with lists of unequal length. -/
theorem C4_extraction_failure_leaves_partial_state :
    (OverloadFunction.overload gInit badAnnFunc).2 =
      some (.nameError "NoSuchName") ∧
    (OverloadFunction.overload gInit badAnnFunc).1.func_list =
      [gCand1, badAnnFunc] ∧
    (OverloadFunction.overload gInit badAnnFunc).1.signatures = [gSig1] ∧
    (OverloadFunction.overload gInit badAnnFunc).1.func_list.length ≠
      (OverloadFunction.overload gInit badAnnFunc).1.signatures.length :=
  ⟨rfl, rfl, rfl, by decide⟩

/-- C10 witness: a candidate whose annotation makes the checker raise a
`TypeError` during the type-checking phase is silently eliminated and
resolution proceeds to the remaining candidates. -/
theorem C10_typeerror_caught_per_candidate_witness :
    tryCandidate badTyFunc badTySig [.vInt 1] [] = .ok false ∧
    collectMatches [(badTyFunc, badTySig), (gCand1, gSig1)] [.vInt 1] [] =
      collectMatches [(gCand1, gSig1)] [.vInt 1] [] ∧
    (∀ (v : Value) (t : Ty), check_type v t = .error .typeCheckError →
      _check_argument_type v t = .ok false) :=
  C10_typeerror_caught_per_candidate badTyFunc badTySig [(gCand1, gSig1)]
    [.vInt 1] [] (.typeErrorRaw "unsupported annotation for check_type") rfl rfl

end Overload
